import Mathlib

/-!
Verification development for the js-loadbalancer repository.

The repository holds a configuration module (`src/config.js`) and one packed
source blob (`src/unnamed/part_000`) containing, in order:
  * lines 1-30   : a configuration object variant that includes a `failover`
                   section (sticky sessions disabled, path "/");
  * lines 31-440 : the main load-balancer module ("V1" below) with sticky
                   sessions, a failover block preferring `targets[0]`, a
                   round-robin fallback, hysteresis health checks with
                   latency/lastCheck bookkeeping, and a /status endpoint;
  * lines 440-739: a second module variant ("V2") whose failover block only
                   contains the secondary branch (no explicit
                   "primary healthy implies primary" branch);
  * lines 739-977: a third, simpler variant ("V3") without a failover block,
                   whose probe classifier accepts any status in [200, 400);
  * the README.

The definitions below are a shallow embedding of those modules.  JavaScript
`Map`s are embedded as functions into `Option` (a key maps to `none` exactly
when `Map.get` returns `undefined`); field reads on `undefined` that would
throw a `TypeError` are embedded as `Except.error`.
-/

namespace LoadBalancer

/-- Backend target identity: the opaque URL string from the `targets` array. -/
abbrev Target := String

/-- Client identity: the IP string computed by `getClientIp`. -/
abbrev ClientKey := String

/-- `config.stickySession` (src/config.js lines 3-6). -/
structure StickySessionConfig where
  enabled : Bool
  resetInterval : Nat
deriving Repr, DecidableEq

/-- `config.healthCheck` (src/config.js lines 9-17). -/
structure HealthCheckConfig where
  enabled : Bool
  interval : Nat
  timeout : Nat
  path : String
  method : String
  unhealthyThreshold : Nat
  healthyThreshold : Nat
deriving Repr, DecidableEq

/-- `config.failover` (part_000 lines 20-23; absent from src/config.js). -/
structure FailoverConfig where
  enabled : Bool
deriving Repr, DecidableEq

/-- `config.server`. -/
structure ServerConfig where
  port : Nat
  host : String
deriving Repr, DecidableEq

/-- The configuration object.  `failover` is an `Option` because the module
`src/config.js` exports a config object with no `failover` section at all,
while the config variant at part_000 lines 1-30 has one; a JavaScript read of
`config.failover` yields `undefined` in the former case. -/
structure Config where
  stickySession : StickySessionConfig
  healthCheck : HealthCheckConfig
  failover : Option FailoverConfig
  server : ServerConfig
deriving Repr, DecidableEq

/-- The configuration exported by `src/config.js`: sticky sessions enabled,
health checks enabled with thresholds {unhealthy 2, healthy 1}, NO failover
section. -/
def srcConfig : Config :=
  { stickySession := { enabled := true, resetInterval := 86400000 }
    healthCheck :=
      { enabled := true, interval := 5000, timeout := 3000
        path := "/health", method := "GET"
        unhealthyThreshold := 2, healthyThreshold := 1 }
    failover := none
    server := { port := 8080, host := "localhost" } }

/-- The configuration variant at part_000 lines 1-30: sticky sessions
disabled, failover enabled. -/
def part000Config : Config :=
  { stickySession := { enabled := false, resetInterval := 86400000 }
    healthCheck :=
      { enabled := true, interval := 5000, timeout := 3000
        path := "/", method := "GET"
        unhealthyThreshold := 2, healthyThreshold := 1 }
    failover := some { enabled := true }
    server := { port := 8080, host := "localhost" } }

/-- A `targetHealth` record of the V1 module (part_000 lines 50-58):
`{ isHealthy, failures, successes, latency, lastCheck }`.  `lastCheck` is the
ISO timestamp string in the source; time is embedded as a `Nat`. -/
structure TargetState where
  isHealthy : Bool
  failures : Nat
  successes : Nat
  latency : Option Nat
  lastCheck : Option Nat
deriving Repr, DecidableEq

/-- The `targetHealth` map: `Map.get` returns `none` for unknown targets. -/
abbrev HealthMap := Target → Option TargetState

/-- The `sessionMap`: client IP to cached target. -/
abbrev SessionMap := ClientKey → Option Target

/-- `targetHealth.set(t, h)`. -/
def setHealth (m : HealthMap) (t : Target) (h : TargetState) : HealthMap :=
  fun t2 => if t2 = t then some h else m t2

/-- `sessionMap.set(k, t)`. -/
def setSession (m : SessionMap) (k : ClientKey) (t : Target) : SessionMap :=
  fun k2 => if k2 = k then some t else m k2

/-- `sessionMap.delete(k)`. -/
def deleteSession (m : SessionMap) (k : ClientKey) : SessionMap :=
  fun k2 => if k2 = k then none else m k2

/-- The purge loop at part_000 lines 214-218: delete every session entry
whose cached target is `t`. -/
def purgeSessions (m : SessionMap) (t : Target) : SessionMap :=
  fun k => match m k with
    | some t2 => if t2 = t then none else some t2
    | none => none

/-- The module-level mutable state of the V1 module: `targetHealth` (line 45),
`sessionMap` (line 42) and the round-robin cursor `current` (line 43). -/
structure LBState where
  targetHealth : HealthMap
  sessionMap : SessionMap
  current : Nat

/-- The initial per-target record (part_000 lines 51-57). -/
def initialTargetState : TargetState :=
  { isHealthy := true, failures := 0, successes := 0
    latency := none, lastCheck := none }

/-- The module state right after the initialisation loop at part_000
lines 50-58: every configured target healthy, empty session map, cursor 0. -/
def initialState (targets : List Target) : LBState :=
  { targetHealth := fun t => if targets.contains t then some initialTargetState else none
    sessionMap := fun _ => none
    current := 0 }

/-- A JavaScript `TypeError` raised by a field read on `undefined`. -/
inductive JsError
  /-- reading `.enabled` of `config.failover` when the config has no
  `failover` section (part_000 line 83 under src/config.js). -/
  | typeErrorFailoverEnabled
  /-- reading a field of `targetHealth.get(target)` when the target has no
  health record (part_000 line 190). -/
  | typeErrorHealthUndefined
deriving Repr, DecidableEq

/-- `health && health.isHealthy` (the guard used at part_000 lines 68, 76,
90, 99). -/
def healthyIn (th : HealthMap) (t : Target) : Bool :=
  match th t with
  | some h => h.isHealthy
  | none => false

/-- `service1Health && !service1Health.isHealthy` (part_000 line 99). -/
def unhealthyRecorded (th : HealthMap) (t : Target) : Bool :=
  match th t with
  | some h => !h.isHealthy
  | none => false

/-- `getHealthyTargets()` (part_000 lines 65-70). -/
def getHealthyTargets (targets : List Target) (th : HealthMap) : List Target :=
  targets.filter (fun t => healthyIn th t)

/-- The sticky-session lookup at the top of `getTargetForIp` (part_000
lines 73-80): on a healthy cached target return it; on a stale or unknown
cached target delete the entry and fall through; otherwise fall through. -/
def stickyStep (cfg : Config) (s : LBState) (ip : ClientKey) : Option Target × LBState :=
  if cfg.stickySession.enabled then
    match s.sessionMap ip with
    | some cachedTarget =>
      if healthyIn s.targetHealth cachedTarget then
        (some cachedTarget, s)
      else
        (none, { s with sessionMap := deleteSession s.sessionMap ip })
    | none => (none, s)
  else
    (none, s)

/-- `if (config.stickySession.enabled) sessionMap.set(ip, target)` (part_000
lines 92-94, 101-103, 118-120). -/
def recordSession (cfg : Config) (s : LBState) (ip : ClientKey) (t : Target) : LBState :=
  if cfg.stickySession.enabled then
    { s with sessionMap := setSession s.sessionMap ip t }
  else
    s

/-- The round-robin fallback of `getTargetForIp` (part_000 lines 108-122):
filter the healthy targets, return `null` when there are none, otherwise
index with `current % length`, advance the shared cursor, and record the
session when sticky sessions are enabled. -/
def roundRobin (cfg : Config) (targets : List Target) (s : LBState) (ip : ClientKey) :
    Option Target × LBState :=
  let healthyTargets := getHealthyTargets targets s.targetHealth
  if hlen : healthyTargets.length = 0 then
    (none, s)
  else
    let target := healthyTargets.get
      ⟨s.current % healthyTargets.length,
        Nat.mod_lt _ (Nat.pos_of_ne_zero hlen)⟩
    let s1 := { s with current := (s.current + 1) % healthyTargets.length }
    (some target, recordSession cfg s1 ip target)

/-- `getTargetForIp` of the V1 module (part_000 lines 72-123).  The result
component is `Except.error` when the JavaScript code would throw: line 83
reads `config.failover.enabled` unconditionally after a sticky-session miss,
so a configuration without a `failover` section raises a `TypeError` there.
`Except.ok none` is the source's `null` return. -/
def getTargetForIp (cfg : Config) (targets : List Target) (s : LBState) (ip : ClientKey) :
    Except JsError (Option Target) × LBState :=
  match stickyStep cfg s ip with
  | (some cachedTarget, s1) => (Except.ok (some cachedTarget), s1)
  | (none, s1) =>
    match cfg.failover with
    | none => (Except.error JsError.typeErrorFailoverEnabled, s1)
    | some failoverCfg =>
      match failoverCfg.enabled, targets with
      | true, service1 :: service2 :: _ =>
        if healthyIn s1.targetHealth service1 then
          (Except.ok (some service1), recordSession cfg s1 ip service1)
        else if unhealthyRecorded s1.targetHealth service1
            && healthyIn s1.targetHealth service2 then
          (Except.ok (some service2), recordSession cfg s1 ip service2)
        else
          let p := roundRobin cfg targets s1 ip
          (Except.ok p.1, p.2)
      | _, _ =>
        let p := roundRobin cfg targets s1 ip
        (Except.ok p.1, p.2)

/-- The distinguishing error kinds attached to failed probe results
(part_000 lines 128, 167, 175: "Shutting down", `err.message`, "Timeout"). -/
inductive ProbeError
  | shuttingDown
  | connError (message : String)
  | timeout
deriving Repr, DecidableEq

/-- What the network did for one probe attempt: a response with a status
code, a connection error, or a timeout.  Latencies are the elapsed
milliseconds measured by the handlers. -/
inductive ProbeOutcome
  | response (statusCode : Nat) (latency : Nat)
  | connError (message : String) (latency : Nat)
  | timeout (latency : Nat)
deriving Repr, DecidableEq

/-- A resolved health-check result of the V1 module (the objects passed to
`resolve` at part_000 lines 128, 159, 167, 175). -/
structure ProbeResult where
  isHealthy : Bool
  error : Option ProbeError
  statusCode : Option Nat
  latency : Option Nat
deriving Repr, DecidableEq

/-- `checkTargetHealth` of the V1 module (part_000 lines 125-181), as the
function from the shutdown flag sampled at probe start and the network
outcome to the resolved result.  A probe issued while `isShuttingDown` is
already set short-circuits with a failed result (lines 127-130); otherwise a
response is classified healthy exactly when `res.statusCode === 200`
(line 150), and a connection error or timeout is a failed result. -/
def checkTargetHealth (isShuttingDown : Bool) (outcome : ProbeOutcome) : ProbeResult :=
  if isShuttingDown then
    { isHealthy := false, error := some ProbeError.shuttingDown
      statusCode := none, latency := none }
  else
    match outcome with
    | ProbeOutcome.response statusCode latency =>
      { isHealthy := statusCode == 200, error := none
        statusCode := some statusCode, latency := some latency }
    | ProbeOutcome.connError message latency =>
      { isHealthy := false, error := some (ProbeError.connError message)
        statusCode := none, latency := some latency }
    | ProbeOutcome.timeout latency =>
      { isHealthy := false, error := some ProbeError.timeout
        statusCode := none, latency := some latency }

/-- A health state flip, reported exactly where the source logs
"is now HEALTHY" (line 200) or "is now UNHEALTHY" (line 212). -/
inductive TransitionEvent
  | becameHealthy
  | becameUnhealthy
deriving Repr, DecidableEq

/-- The per-record part of `performHealthCheck` (part_000 lines 188-223):
update `latency` when the result carries one and stamp `lastCheck`
(lines 189-192), then on a successful result increment `successes`, zero
`failures`, and flip to healthy when the flag was false and `successes`
reached `healthyThreshold` (lines 194-201); on a failed result zero
`successes`, increment `failures`, and flip to unhealthy when the flag was
true and `failures` reached `unhealthyThreshold` (lines 202-212).  The
second component reports the flip, if any. -/
def applyProbe (hc : HealthCheckConfig) (now : Nat) (h : TargetState)
    (result : ProbeResult) : TargetState × Option TransitionEvent :=
  let h0 : TargetState :=
    { h with
      latency := match result.latency with
        | some l => some l
        | none => h.latency
      lastCheck := some now }
  if result.isHealthy then
    let h1 : TargetState := { h0 with successes := h0.successes + 1, failures := 0 }
    if h1.isHealthy = false ∧ hc.healthyThreshold ≤ h1.successes then
      ({ h1 with isHealthy := true }, some TransitionEvent.becameHealthy)
    else
      (h1, none)
  else
    let h1 : TargetState := { h0 with successes := 0, failures := h0.failures + 1 }
    if h1.isHealthy = true ∧ hc.unhealthyThreshold ≤ h1.failures then
      ({ h1 with isHealthy := false }, some TransitionEvent.becameUnhealthy)
    else
      (h1, none)

/-- `performHealthCheck` of the V1 module (part_000 lines 183-224) at the
module-state level: resolve the probe via `checkTargetHealth`, apply the
result to the target's record, and, exactly inside the flip-to-unhealthy
branch, purge every session entry cached on this target (lines 214-218).
The `Except.error` case embeds the `TypeError` the source would raise at
line 190 if the target had no health record. -/
def performHealthCheck (cfg : Config) (now : Nat) (isShuttingDown : Bool)
    (outcome : ProbeOutcome) (s : LBState) (target : Target) :
    Except JsError (LBState × Option TransitionEvent) :=
  let result := checkTargetHealth isShuttingDown outcome
  match s.targetHealth target with
  | none => Except.error JsError.typeErrorHealthUndefined
  | some health =>
    let p := applyProbe cfg.healthCheck now health result
    let th1 := setHealth s.targetHealth target p.1
    match p.2 with
    | some TransitionEvent.becameUnhealthy =>
      Except.ok
        ({ s with targetHealth := th1
                  sessionMap := purgeSessions s.sessionMap target }, p.2)
    | _ => Except.ok ({ s with targetHealth := th1 }, p.2)

/-- The dispatch-failure fast path in the proxy error callbacks (part_000
lines 340-344 and 394-398): when the target has a health record, increment
its `failures` by one and trigger an immediate out-of-band
`performHealthCheck` (the Boolean component records that the probe was
triggered; the probe itself completes asynchronously and is applied
separately via `performHealthCheck`). -/
def recordDispatchFailure (s : LBState) (target : Target) : LBState × Bool :=
  match s.targetHealth target with
  | some health =>
    ({ s with targetHealth :=
        setHealth s.targetHealth target { health with failures := health.failures + 1 } },
      true)
  | none => (s, false)

/-- The routing decision of the request handler (part_000 lines 277-286):
`null` from `getTargetForIp` is answered with a 503 "Service Unavailable"
response and nothing else; a selected target is handed to the dispatcher. -/
inductive RouteOutcome
  | serviceUnavailable (statusCode : Nat)
  | forwarded (target : Target)
deriving Repr, DecidableEq

/-- The selection part of the HTTP request handler (part_000 lines 277-286):
one call to `getTargetForIp`, then either a 503 response or a forward.  There
is no internal retry: the outcome is produced directly from the single
selection result. -/
def handleRequest (cfg : Config) (targets : List Target) (s : LBState) (ip : ClientKey) :
    Except JsError RouteOutcome × LBState :=
  match getTargetForIp cfg targets s ip with
  | (Except.error e, s1) => (Except.error e, s1)
  | (Except.ok none, s1) => (Except.ok (RouteOutcome.serviceUnavailable 503), s1)
  | (Except.ok (some target), s1) => (Except.ok (RouteOutcome.forwarded target), s1)

/-- The `targets` array of the V1 module (part_000 lines 37-40). -/
def v1TargetA : Target := "https://h1.example.com"

/-- Second element of the V1 `targets` array. -/
def v1TargetB : Target := "https://h2.example.com"

/-- The V1 `targets` array. -/
def v1Targets : List Target := [v1TargetA, v1TargetB]

end LoadBalancer

namespace LoadBalancerV2

open LoadBalancer (Target ClientKey Config JsError)

/-- A `targetHealth` record of the V2 module (part_000 lines 460-464):
no latency or lastCheck fields. -/
structure TargetState where
  isHealthy : Bool
  failures : Nat
  successes : Nat
deriving Repr, DecidableEq

/-- The V2 module state (part_000 lines 451-457). -/
structure LBState where
  targetHealth : Target → Option TargetState
  sessionMap : ClientKey → Option Target
  current : Nat

/-- `health && health.isHealthy` in the V2 module. -/
def healthyIn (th : Target → Option TargetState) (t : Target) : Bool :=
  match th t with
  | some h => h.isHealthy
  | none => false

/-- `service1Health && !service1Health.isHealthy` (part_000 line 497). -/
def unhealthyRecorded (th : Target → Option TargetState) (t : Target) : Bool :=
  match th t with
  | some h => !h.isHealthy
  | none => false

/-- `getHealthyTargets()` of the V2 module (part_000 lines 472-477). -/
def getHealthyTargets (targets : List Target) (th : Target → Option TargetState) :
    List Target :=
  targets.filter (fun t => healthyIn th t)

/-- The sticky lookup of the V2 `getTargetForIp` (part_000 lines 480-487). -/
def stickyStep (cfg : Config) (s : LBState) (ip : ClientKey) : Option Target × LBState :=
  if cfg.stickySession.enabled then
    match s.sessionMap ip with
    | some cachedTarget =>
      if healthyIn s.targetHealth cachedTarget then
        (some cachedTarget, s)
      else
        (none, { s with sessionMap := LoadBalancer.deleteSession s.sessionMap ip })
    | none => (none, s)
  else
    (none, s)

/-- Session recording in the V2 module (part_000 lines 499-501, 515-517). -/
def recordSession (cfg : Config) (s : LBState) (ip : ClientKey) (t : Target) : LBState :=
  if cfg.stickySession.enabled then
    { s with sessionMap := LoadBalancer.setSession s.sessionMap ip t }
  else
    s

/-- The round-robin fallback of the V2 `getTargetForIp` (part_000
lines 506-519). -/
def roundRobin (cfg : Config) (targets : List Target) (s : LBState) (ip : ClientKey) :
    Option Target × LBState :=
  let healthyTargets := getHealthyTargets targets s.targetHealth
  if hlen : healthyTargets.length = 0 then
    (none, s)
  else
    let target := healthyTargets.get
      ⟨s.current % healthyTargets.length,
        Nat.mod_lt _ (Nat.pos_of_ne_zero hlen)⟩
    let s1 := { s with current := (s.current + 1) % healthyTargets.length }
    (some target, recordSession cfg s1 ip target)

/-- `getTargetForIp` of the V2 module (part_000 lines 479-520).  Its
failover block (lines 489-504) contains ONLY the secondary branch: when
service 1 is down and service 2 is healthy route to service 2; in every
other case — including service 1 healthy — control falls through to the
round-robin fallback.  Line 490 reads `config.failover.enabled`
unconditionally, like V1. -/
def getTargetForIp (cfg : Config) (targets : List Target) (s : LBState) (ip : ClientKey) :
    Except JsError (Option Target) × LBState :=
  match stickyStep cfg s ip with
  | (some cachedTarget, s1) => (Except.ok (some cachedTarget), s1)
  | (none, s1) =>
    match cfg.failover with
    | none => (Except.error JsError.typeErrorFailoverEnabled, s1)
    | some failoverCfg =>
      match failoverCfg.enabled, targets with
      | true, service1 :: service2 :: _ =>
        if unhealthyRecorded s1.targetHealth service1
            && healthyIn s1.targetHealth service2 then
          (Except.ok (some service2), recordSession cfg s1 ip service2)
        else
          let p := roundRobin cfg targets s1 ip
          (Except.ok p.1, p.2)
      | _, _ =>
        let p := roundRobin cfg targets s1 ip
        (Except.ok p.1, p.2)

/-- The `targets` array of the V2 module (part_000 lines 446-449). -/
def v2TargetA : Target := "https://ha.screenshare.lol"

/-- Second element of the V2 `targets` array. -/
def v2TargetB : Target := "https://ha2.screenshare.lol"

/-- The V2 `targets` array. -/
def v2Targets : List Target := [v2TargetA, v2TargetB]

end LoadBalancerV2

namespace LoadBalancerV3

open LoadBalancer (ProbeError ProbeOutcome)

/-- A resolved health-check result of the V3 module (the objects passed to
`resolve` at part_000 lines 806, 825, 831, 837): no statusCode or latency. -/
structure ProbeResult where
  isHealthy : Bool
  error : Option ProbeError
deriving Repr, DecidableEq

/-- `checkTargetHealth` of the V3 module (part_000 lines 803-843).  Its
response classification at line 823 is
`res.statusCode >= 200 && res.statusCode < 400`: any 2xx or 3xx status is a
success, unlike the V1 classifier which requires exactly 200. -/
def checkTargetHealth (isShuttingDown : Bool) (outcome : ProbeOutcome) : ProbeResult :=
  if isShuttingDown then
    { isHealthy := false, error := some ProbeError.shuttingDown }
  else
    match outcome with
    | ProbeOutcome.response statusCode _ =>
      { isHealthy := decide (200 ≤ statusCode) && decide (statusCode < 400)
        error := none }
    | ProbeOutcome.connError message _ =>
      { isHealthy := false, error := some (ProbeError.connError message) }
    | ProbeOutcome.timeout _ =>
      { isHealthy := false, error := some ProbeError.timeout }

end LoadBalancerV3

/-! ## Observers and concrete instances used by the theorems below -/

namespace LoadBalancer

/-- The target record visible after a `performHealthCheck` run (`none` when
the run raised or the target has no record). -/
def healthAfter (res : Except JsError (LBState × Option TransitionEvent))
    (t : Target) : Option TargetState :=
  match res with
  | Except.ok (s, _) => s.targetHealth t
  | Except.error _ => none

/-- The session entry visible for key `k` after a `performHealthCheck` run. -/
def sessionAfter (res : Except JsError (LBState × Option TransitionEvent))
    (k : ClientKey) : Option Target :=
  match res with
  | Except.ok (s, _) => s.sessionMap k
  | Except.error _ => none

/-- The transition event of a `performHealthCheck` run. -/
def eventOf (res : Except JsError (LBState × Option TransitionEvent)) :
    Option TransitionEvent :=
  match res with
  | Except.ok (_, ev) => ev
  | Except.error _ => none

/-- A concrete client IP. -/
def clientIp0 : ClientKey := "203.0.113.7"

/-- A concrete failed probe result (a timeout). -/
def witnessFailResult : ProbeResult := checkTargetHealth false (ProbeOutcome.timeout 3)

/-- A concrete successful probe result (status 200). -/
def witnessSuccessResult : ProbeResult := checkTargetHealth false (ProbeOutcome.response 200 5)

/-- A healthy record one failure short of the unhealthy threshold 2. -/
def witnessHealthy1 : TargetState :=
  { isHealthy := true, failures := 1, successes := 0, latency := none, lastCheck := none }

/-- A state whose session map caches `clientIp0 -> v1TargetA` with all
targets healthy and a nonzero cursor. -/
def stickyDemoState : LBState :=
  { targetHealth := fun t => if v1Targets.contains t then some initialTargetState else none
    sessionMap := fun k => if k = clientIp0 then some v1TargetA else none
    current := 5 }

/-- A state in which target A is healthy with one accumulated failure and a
session entry caches `clientIp0 -> v1TargetA`. -/
def c5Pre : LBState :=
  { targetHealth := fun t => if t = v1TargetA then some witnessHealthy1 else none
    sessionMap := fun k => if k = clientIp0 then some v1TargetA else none
    current := 0 }

/-- A state in which every target of the V1 list is unhealthy. -/
def allDownState : LBState :=
  { targetHealth := fun t =>
      if v1Targets.contains t then
        some { isHealthy := false, failures := 2, successes := 0
               latency := none, lastCheck := none }
      else none
    sessionMap := fun _ => none
    current := 3 }

/-- A record that is healthy while carrying nonzero success count. -/
def c9Pre : TargetState :=
  { isHealthy := true, failures := 0, successes := 4, latency := some 12, lastCheck := some 1 }

/-- A state giving target A the record `c9Pre`. -/
def c9State : LBState :=
  { targetHealth := fun t => if t = v1TargetA then some c9Pre else none
    sessionMap := fun _ => none
    current := 0 }

end LoadBalancer

namespace LoadBalancerV2

/-- A V2 state with both targets healthy, an empty session map and the
round-robin cursor at 1. -/
def bothHealthyCursor1 : LBState :=
  { targetHealth := fun t =>
      if v2Targets.contains t then
        some { isHealthy := true, failures := 0, successes := 1 }
      else none
    sessionMap := fun _ => none
    current := 1 }

/-- A V2 state with the primary down and the secondary healthy. -/
def primaryDownState : LBState :=
  { targetHealth := fun t =>
      if t = v2TargetA then
        some { isHealthy := false, failures := 2, successes := 0 }
      else if t = v2TargetB then
        some { isHealthy := true, failures := 0, successes := 1 }
      else none
    sessionMap := fun _ => none
    current := 1 }

end LoadBalancerV2

/-! ## Lemmas about probe-result application -/

namespace LoadBalancer

/-- Field-level description of `applyProbe` on a successful result. -/
theorem applyProbe_success_fields (hc : HealthCheckConfig) (now : Nat)
    (h : TargetState) (r : ProbeResult) (hr : r.isHealthy = true) :
    ((applyProbe hc now h r).1.successes = h.successes + 1)
    ∧ ((applyProbe hc now h r).1.failures = 0)
    ∧ ((applyProbe hc now h r).1.isHealthy =
        (h.isHealthy || decide (hc.healthyThreshold ≤ h.successes + 1)))
    ∧ ((applyProbe hc now h r).2 =
        if h.isHealthy = false ∧ hc.healthyThreshold ≤ h.successes + 1 then
          some TransitionEvent.becameHealthy
        else none) := by
  unfold applyProbe
  simp only [hr, if_true]
  split
  next hcond =>
    rcases hcond with ⟨h1, h2⟩
    simp_all
  next hcond =>
    simp only [not_and, not_le] at hcond
    by_cases hflag : h.isHealthy
    · simp_all
    · simp only [Bool.not_eq_true] at hflag
      have := hcond (by simp [hflag])
      simp_all

/-- Field-level description of `applyProbe` on a failed result. -/
theorem applyProbe_failure_fields (hc : HealthCheckConfig) (now : Nat)
    (h : TargetState) (r : ProbeResult) (hr : r.isHealthy = false) :
    ((applyProbe hc now h r).1.failures = h.failures + 1)
    ∧ ((applyProbe hc now h r).1.successes = 0)
    ∧ ((applyProbe hc now h r).1.isHealthy =
        (h.isHealthy && !decide (hc.unhealthyThreshold ≤ h.failures + 1)))
    ∧ ((applyProbe hc now h r).2 =
        if h.isHealthy = true ∧ hc.unhealthyThreshold ≤ h.failures + 1 then
          some TransitionEvent.becameUnhealthy
        else none) := by
  unfold applyProbe
  simp only [hr, if_false, Bool.false_eq_true]
  split
  next hcond =>
    rcases hcond with ⟨h1, h2⟩
    simp_all
  next hcond =>
    simp only [not_and, not_le] at hcond
    by_cases hflag : h.isHealthy
    · have := hcond (by simp [hflag])
      simp_all
    · simp_all

end LoadBalancer

namespace LoadBalancer

/-- C1: per probe application to any target record, `isHealthy` flips from
true to false only when the result is a failure and the updated
`consecutiveFailures` counter has reached at least `unhealthyThreshold`
while the flag was previously true; it flips from false to true only when
the result is a success and the updated `consecutiveSuccesses` counter has
reached at least `healthyThreshold` while the flag was previously false; and
a transition event is emitted exactly when the flag flips, so in any
sequence of applied probe results each flip produces exactly one transition
and continued failures past the threshold (flag already false) produce no
further event. -/
theorem health_flip_characterization (hc : HealthCheckConfig) (now : Nat)
    (h : TargetState) (r : ProbeResult) :
    ((applyProbe hc now h r).2 ≠ none ↔ (applyProbe hc now h r).1.isHealthy ≠ h.isHealthy)
    ∧ (h.isHealthy = true → (applyProbe hc now h r).1.isHealthy = false →
        r.isHealthy = false ∧ hc.unhealthyThreshold ≤ (applyProbe hc now h r).1.failures
          ∧ (applyProbe hc now h r).2 = some TransitionEvent.becameUnhealthy)
    ∧ (h.isHealthy = false → (applyProbe hc now h r).1.isHealthy = true →
        r.isHealthy = true ∧ hc.healthyThreshold ≤ (applyProbe hc now h r).1.successes
          ∧ (applyProbe hc now h r).2 = some TransitionEvent.becameHealthy) := by
  by_cases hr : r.isHealthy
  · obtain ⟨hs, hf, hflag, hev⟩ := applyProbe_success_fields hc now h r hr
    rw [hs, hflag, hev]
    cases hh : h.isHealthy <;>
      by_cases hth : hc.healthyThreshold ≤ h.successes + 1 <;>
      simp_all
  · simp only [Bool.not_eq_true] at hr
    obtain ⟨hf, hs, hflag, hev⟩ := applyProbe_failure_fields hc now h r hr
    rw [hf, hflag, hev]
    cases hh : h.isHealthy <;>
      by_cases hth : hc.unhealthyThreshold ≤ h.failures + 1 <;>
      simp_all

/-- Witness for C1: with thresholds {unhealthy 2, healthy 1}, a second
consecutive failure on a healthy record flips it and emits exactly the
`becameUnhealthy` event. -/
theorem health_flip_characterization_witness :
    (applyProbe part000Config.healthCheck 0 witnessHealthy1 witnessFailResult).2
      = some TransitionEvent.becameUnhealthy :=
  ((health_flip_characterization part000Config.healthCheck 0 witnessHealthy1
      witnessFailResult).2.1 rfl (by decide)).2.2

/-- C8: every probe-result application resets the opposite counter: a
success sets `failures` to 0 (and increments `successes`), a failure sets
`successes` to 0 (and increments `failures`); hence after every probe at
most one of the two counters is nonzero. -/
theorem probe_counters_exclusive (hc : HealthCheckConfig) (now : Nat)
    (h : TargetState) (r : ProbeResult) :
    (r.isHealthy = true → (applyProbe hc now h r).1.successes = h.successes + 1
        ∧ (applyProbe hc now h r).1.failures = 0)
    ∧ (r.isHealthy = false → (applyProbe hc now h r).1.successes = 0
        ∧ (applyProbe hc now h r).1.failures = h.failures + 1)
    ∧ ((applyProbe hc now h r).1.failures = 0 ∨ (applyProbe hc now h r).1.successes = 0) := by
  by_cases hr : r.isHealthy
  · obtain ⟨hs, hf, -, -⟩ := applyProbe_success_fields hc now h r hr
    simp_all
  · simp only [Bool.not_eq_true] at hr
    obtain ⟨hf, hs, -, -⟩ := applyProbe_failure_fields hc now h r hr
    simp_all

/-- Witness for C8 at a concrete record, one success and one failure. -/
theorem probe_counters_exclusive_witness :
    (applyProbe part000Config.healthCheck 0 initialTargetState witnessSuccessResult).1.failures = 0
    ∧ (applyProbe part000Config.healthCheck 0 initialTargetState witnessFailResult).1.successes = 0 :=
  ⟨((probe_counters_exclusive part000Config.healthCheck 0 initialTargetState
        witnessSuccessResult).1 (by decide)).2,
   ((probe_counters_exclusive part000Config.healthCheck 0 initialTargetState
        witnessFailResult).2.1 (by decide)).1⟩

end LoadBalancer

namespace LoadBalancer

/-- The purge loop leaves no session entry pointing at the purged target. -/
theorem purgeSessions_no_target (m : SessionMap) (t : Target) (k : ClientKey) :
    purgeSessions m t k ≠ some t := by
  unfold purgeSessions
  cases m k with
  | none => simp
  | some t2 => by_cases ht : t2 = t <;> simp [ht]

/-- A probe application that takes a healthy record to an unhealthy one
emits the `becameUnhealthy` event. -/
theorem applyProbe_down_event (hc : HealthCheckConfig) (now : Nat)
    (h : TargetState) (r : ProbeResult) (hpre : h.isHealthy = true)
    (hpost : (applyProbe hc now h r).1.isHealthy = false) :
    (applyProbe hc now h r).2 = some TransitionEvent.becameUnhealthy := by
  by_cases hri : r.isHealthy
  · obtain ⟨-, -, hflag, -⟩ := applyProbe_success_fields hc now h r hri
    rw [hflag, hpre] at hpost
    simp at hpost
  · simp only [Bool.not_eq_true] at hri
    obtain ⟨-, -, hflag, hev⟩ := applyProbe_failure_fields hc now h r hri
    rw [hflag, hpre] at hpost
    simp only [Bool.true_and, Bool.not_eq_false'] at hpost
    rw [hev, if_pos ⟨hpre, of_decide_eq_true hpost⟩]

/-- C10: under the configuration exported by `src/config.js` — which has no
`failover` section — every selection call made while the session map is
empty (as it is initially, and as it remains, since the call throws before
any entry can be recorded) dereferences the absent `config.failover` at
part_000 line 83 and raises a `TypeError` before the round-robin fallback
can be reached, for every client key, every target list and every cursor;
the state, in particular the empty session map, is unchanged. -/
theorem srcConfig_selection_typeerror (targets : List Target) (s : LBState)
    (ip : ClientKey) (hempty : ∀ k, s.sessionMap k = none) :
    getTargetForIp srcConfig targets s ip
      = (Except.error JsError.typeErrorFailoverEnabled, s) := by
  unfold getTargetForIp stickyStep
  simp [srcConfig, hempty ip]

/-- Witness for C10: the initial module state under `src/config.js`. -/
theorem srcConfig_selection_typeerror_witness :
    getTargetForIp srcConfig v1Targets (initialState v1Targets) clientIp0
      = (Except.error JsError.typeErrorFailoverEnabled, initialState v1Targets) :=
  srcConfig_selection_typeerror v1Targets (initialState v1Targets) clientIp0
    (fun _ => rfl)

/-- C6: with sticky sessions enabled and a cached entry for the client key
pointing at a target whose record is currently healthy, `getTargetForIp`
returns exactly that cached target and leaves the whole state — session
map, health map and round-robin cursor — untouched; the call is therefore
repeatable with the same outcome until the target's record turns
unhealthy. -/
theorem sticky_hit_stable (cfg : Config) (targets : List Target) (s : LBState)
    (ip : ClientKey) (t : Target) (h : TargetState)
    (hsticky : cfg.stickySession.enabled = true)
    (hmap : s.sessionMap ip = some t)
    (hh : s.targetHealth t = some h)
    (hhealthy : h.isHealthy = true) :
    getTargetForIp cfg targets s ip = (Except.ok (some t), s) := by
  unfold getTargetForIp stickyStep
  simp [hsticky, hmap, healthyIn, hh, hhealthy]

/-- Witness for C6: a healthy cached target is returned with the state
untouched, cursor 5 included. -/
theorem sticky_hit_stable_witness :
    getTargetForIp srcConfig v1Targets stickyDemoState clientIp0
      = (Except.ok (some v1TargetA), stickyDemoState) :=
  sticky_hit_stable srcConfig v1Targets stickyDemoState clientIp0 v1TargetA
    initialTargetState rfl (by decide) (by decide) rfl

/-- C5: whenever a probe application flips a target's record from healthy to
unhealthy, the same `performHealthCheck` step purges every session entry
cached on that target, so no subsequent lookup of any client key in the
resulting session map can return that target. -/
theorem unhealthy_transition_purges_sessions (cfg : Config) (now : Nat)
    (isShuttingDown : Bool) (outcome : ProbeOutcome) (s : LBState) (target : Target)
    (h : TargetState) (hget : s.targetHealth target = some h)
    (hpre : h.isHealthy = true)
    (hpost : (applyProbe cfg.healthCheck now h
        (checkTargetHealth isShuttingDown outcome)).1.isHealthy = false) :
    ∀ k, sessionAfter (performHealthCheck cfg now isShuttingDown outcome s target) k
      ≠ some target := by
  intro k
  have hev := applyProbe_down_event cfg.healthCheck now h
    (checkTargetHealth isShuttingDown outcome) hpre hpost
  unfold performHealthCheck
  simp only [hget, hev, sessionAfter]
  exact purgeSessions_no_target s.sessionMap target k

/-- Witness for C5: a second failure on target A (threshold 2) flips it and
the session entry for `clientIp0` no longer resolves to A. -/
theorem unhealthy_transition_purges_sessions_witness :
    sessionAfter (performHealthCheck srcConfig 9 false (ProbeOutcome.timeout 3)
        c5Pre v1TargetA) clientIp0 ≠ some v1TargetA :=
  unhealthy_transition_purges_sessions srcConfig 9 false (ProbeOutcome.timeout 3)
    c5Pre v1TargetA witnessHealthy1 (by decide) rfl (by decide) clientIp0

end LoadBalancer

namespace LoadBalancer

/-- The sticky lookup never touches the health map or the cursor. -/
theorem stickyStep_preserves (cfg : Config) (s : LBState) (ip : ClientKey) :
    (stickyStep cfg s ip).2.targetHealth = s.targetHealth
    ∧ (stickyStep cfg s ip).2.current = s.current := by
  unfold stickyStep
  constructor <;> (split <;> (try split) <;> (try split) <;> rfl)

/-- Recording a session entry never touches the health map. -/
theorem recordSession_preserves_health (cfg : Config) (s : LBState) (ip : ClientKey)
    (t : Target) : (recordSession cfg s ip t).targetHealth = s.targetHealth := by
  unfold recordSession
  split <;> rfl

/-- The round-robin fallback never touches the health map. -/
theorem roundRobin_preserves_health (cfg : Config) (targets : List Target)
    (s : LBState) (ip : ClientKey) :
    (roundRobin cfg targets s ip).2.targetHealth = s.targetHealth := by
  unfold roundRobin
  dsimp only
  split
  · rfl
  · exact recordSession_preserves_health cfg _ ip _

/-- Selection never mutates any target's health record. -/
theorem getTargetForIp_preserves_health (cfg : Config) (targets : List Target)
    (s : LBState) (ip : ClientKey) :
    (getTargetForIp cfg targets s ip).2.targetHealth = s.targetHealth := by
  obtain ⟨hth, -⟩ := stickyStep_preserves cfg s ip
  unfold getTargetForIp
  rcases hss : stickyStep cfg s ip with ⟨tOpt, s1⟩
  rw [hss] at hth
  cases tOpt with
  | some t => simpa using hth
  | none =>
    cases cfg.failover with
    | none => simpa using hth
    | some fo =>
      dsimp only
      split
      · split
        · rw [recordSession_preserves_health]
          exact hth
        · split
          · rw [recordSession_preserves_health]
            exact hth
          · dsimp only
            rw [roundRobin_preserves_health]
            exact hth
      · dsimp only
        rw [roundRobin_preserves_health]
        exact hth

/-- C9: the dispatch-failure fast path (the proxy error callbacks) on a
target with a health record increments exactly that target's
`consecutiveFailures` by one — its `consecutiveSuccesses`, `isHealthy` flag
and every other field are untouched, every other target's record is
untouched, the session map and cursor are untouched — and it triggers the
out-of-band probe; moreover no selection call ever changes a health record,
so `isHealthy` can only flip inside probe-result application.  Right after a
dispatch failure both counters can be nonzero simultaneously. -/
theorem dispatch_failure_frame (s : LBState) (target : Target) (h : TargetState)
    (hget : s.targetHealth target = some h) :
    ((recordDispatchFailure s target).1.targetHealth target
        = some { h with failures := h.failures + 1 })
    ∧ (recordDispatchFailure s target).2 = true
    ∧ (∀ t2, t2 ≠ target →
        (recordDispatchFailure s target).1.targetHealth t2 = s.targetHealth t2)
    ∧ (recordDispatchFailure s target).1.sessionMap = s.sessionMap
    ∧ (recordDispatchFailure s target).1.current = s.current
    ∧ (∀ cfg targets s2 ip, (getTargetForIp cfg targets s2 ip).2.targetHealth
        = s2.targetHealth) := by
  unfold recordDispatchFailure
  rw [hget]
  refine ⟨?_, rfl, ?_, rfl, rfl, getTargetForIp_preserves_health⟩
  · simp [setHealth]
  · intro t2 ht2
    simp [setHealth, ht2]

/-- Witness for C9: after a dispatch failure on a healthy record with four
consecutive successes, the record keeps flag and successes and now carries
one failure — both counters nonzero at once. -/
theorem dispatch_failure_frame_witness :
    (recordDispatchFailure c9State v1TargetA).1.targetHealth v1TargetA
      = some { c9Pre with failures := c9Pre.failures + 1 }
    ∧ (recordDispatchFailure c9State v1TargetA).2 = true
    ∧ ((recordDispatchFailure c9State v1TargetA).1.targetHealth v1TargetA).map
        (fun h2 => (decide (h2.failures ≠ 0), decide (h2.successes ≠ 0),
          h2.isHealthy)) = some (true, true, true) := by
  have hfr := dispatch_failure_frame c9State v1TargetA c9Pre (by decide)
  refine ⟨hfr.1, hfr.2.1, ?_⟩
  rw [hfr.1]
  decide

/-- C3 (amended): probe results resolving once shutdown has begun are not
discarded: a probe started while `isShuttingDown` is set short-circuits with
a failed result ("Shutting down"), an in-flight probe destroyed by
`stopHealthChecks` resolves through its error handler as a failed result,
and `performHealthCheck` applies either one to the registry — the target's
`consecutiveSuccesses` is reset to 0 and its `consecutiveFailures` is
incremented (possibly flipping `isHealthy` to false). -/
theorem shutdown_result_applied_as_failure (cfg : Config) (now : Nat)
    (outcome : ProbeOutcome) (s : LBState) (target : Target) (h : TargetState)
    (hget : s.targetHealth target = some h) :
    (checkTargetHealth true outcome).isHealthy = false
    ∧ (∀ msg latency,
        (checkTargetHealth false (ProbeOutcome.connError msg latency)).isHealthy = false)
    ∧ ((healthAfter (performHealthCheck cfg now true outcome s target) target).map
        (fun h2 => (h2.successes, h2.failures)) = some (0, h.failures + 1)) := by
  have hr : (checkTargetHealth true outcome).isHealthy = false := rfl
  refine ⟨hr, fun msg latency => rfl, ?_⟩
  obtain ⟨hf, hs, -, -⟩ := applyProbe_failure_fields cfg.healthCheck now h
    (checkTargetHealth true outcome) hr
  unfold performHealthCheck
  simp only [hget]
  split
  · simp [healthAfter, setHealth, hf, hs]
  · simp [healthAfter, setHealth, hf, hs]

/-- Witness for C3's amended statement: even a 200 response processed after
shutdown has begun is applied as a failure. -/
theorem shutdown_result_applied_as_failure_witness :
    (healthAfter (performHealthCheck srcConfig 7 true (ProbeOutcome.response 200 5)
        c9State v1TargetA) v1TargetA).map (fun h2 => (h2.successes, h2.failures))
      = some (0, 1) :=
  (shutdown_result_applied_as_failure srcConfig 7 (ProbeOutcome.response 200 5)
      c9State v1TargetA c9Pre (by decide)).2.2

/-- Counterexample to C3 as stated: with thresholds {unhealthy 2, healthy 1}
and target A healthy with one prior failure, a probe completing while
`isShuttingDown` is set mutates the health state — failures 1 to 2,
successes stay 0, `isHealthy` flips to false, and the transition event
fires — instead of being discarded. -/
theorem shutdown_discard_counterexample :
    ((healthAfter (performHealthCheck srcConfig 7 true (ProbeOutcome.timeout 3)
        c5Pre v1TargetA) v1TargetA).map
        (fun h2 => (h2.isHealthy, h2.failures, h2.successes))
      = some (false, 2, 0))
    ∧ eventOf (performHealthCheck srcConfig 7 true (ProbeOutcome.timeout 3)
        c5Pre v1TargetA) = some TransitionEvent.becameUnhealthy := by
  exact ⟨by decide, by decide⟩

end LoadBalancer

namespace LoadBalancer

/-- With every configured target unhealthy, the round-robin fallback
returns `null` and leaves the state unchanged. -/
theorem roundRobin_none_of_all_unhealthy (cfg : Config) (targets : List Target)
    (s : LBState) (ip : ClientKey)
    (hall : ∀ t ∈ targets, healthyIn s.targetHealth t = false) :
    roundRobin cfg targets s ip = (none, s) := by
  have hfil : getHealthyTargets targets s.targetHealth = [] := by
    unfold getHealthyTargets
    rw [List.filter_eq_nil_iff]
    intro a ha
    simp [hall a ha]
  unfold roundRobin
  simp [hfil]

/-- When the session map only caches configured targets and every
configured target is unhealthy, the sticky lookup cannot hit. -/
theorem stickyStep_fst_none (cfg : Config) (targets : List Target) (s : LBState)
    (ip : ClientKey)
    (hall : ∀ t ∈ targets, healthyIn s.targetHealth t = false)
    (hsess : ∀ k t, s.sessionMap k = some t → t ∈ targets) :
    (stickyStep cfg s ip).1 = none := by
  unfold stickyStep
  split
  · cases hmap : s.sessionMap ip with
    | none => rfl
    | some t => simp [hall t (hsess ip t hmap)]
  · rfl

/-- C7: in every state where all configured targets are unhealthy (and the
session map only caches configured targets), under any configuration that
does have a `failover` section, `getTargetForIp` returns `null`
deterministically — for every client key and every cursor value — and the
request handler turns that into the 503 Service Unavailable outcome
directly, with no internal retry. -/
theorem all_unhealthy_service_unavailable (cfg : Config) (fo : FailoverConfig)
    (targets : List Target) (s : LBState) (ip : ClientKey)
    (hfo : cfg.failover = some fo)
    (hall : ∀ t ∈ targets, healthyIn s.targetHealth t = false)
    (hsess : ∀ k t, s.sessionMap k = some t → t ∈ targets) :
    (getTargetForIp cfg targets s ip).1 = Except.ok none
    ∧ (handleRequest cfg targets s ip).1
        = Except.ok (RouteOutcome.serviceUnavailable 503) := by
  obtain ⟨hth, -⟩ := stickyStep_preserves cfg s ip
  have hfst := stickyStep_fst_none cfg targets s ip hall hsess
  have hall1 : ∀ t ∈ targets, healthyIn (stickyStep cfg s ip).2.targetHealth t = false := by
    intro t ht
    rw [hth]
    exact hall t ht
  have hmain : (getTargetForIp cfg targets s ip).1 = Except.ok none := by
    unfold getTargetForIp
    rcases hss : stickyStep cfg s ip with ⟨tOpt, s1⟩
    rw [hss] at hfst hall1
    simp only at hfst
    subst hfst
    rw [hfo]
    dsimp only
    have hrr := roundRobin_none_of_all_unhealthy cfg targets s1 ip hall1
    cases hen : fo.enabled with
    | false =>
      cases targets with
      | nil => simp [hrr]
      | cons t0 tl =>
        cases tl with
        | nil => simp [hrr]
        | cons t1 tl2 => simp [hrr]
    | true =>
      cases targets with
      | nil => simp [hrr]
      | cons t0 tl =>
        cases tl with
        | nil => simp [hrr]
        | cons t1 tl2 =>
          have h1 : healthyIn s1.targetHealth t0 = false := hall1 t0 (by simp)
          have h2 : healthyIn s1.targetHealth t1 = false := hall1 t1 (by simp)
          simp [h1, h2, hrr]
  refine ⟨hmain, ?_⟩
  unfold handleRequest
  rcases hg : getTargetForIp cfg targets s ip with ⟨res, s1⟩
  rw [hg] at hmain
  simp only at hmain
  subst hmain
  rfl

/-- Witness for C7: both V1 targets down, nonzero cursor, failover-enabled
configuration — selection yields `null` and the handler answers 503. -/
theorem all_unhealthy_service_unavailable_witness :
    (getTargetForIp part000Config v1Targets allDownState clientIp0).1 = Except.ok none
    ∧ (handleRequest part000Config v1Targets allDownState clientIp0).1
        = Except.ok (RouteOutcome.serviceUnavailable 503) :=
  all_unhealthy_service_unavailable part000Config { enabled := true } v1Targets
    allDownState clientIp0 rfl (by decide) (fun k t hkt => Option.noConfusion hkt)

end LoadBalancer

namespace LoadBalancer

/-- A target recorded as unhealthy is in particular not healthy. -/
theorem healthyIn_false_of_unhealthyRecorded (th : HealthMap) (t : Target)
    (h : unhealthyRecorded th t = true) : healthyIn th t = false := by
  unfold unhealthyRecorded at h
  unfold healthyIn
  cases hth : th t with
  | none => rfl
  | some hrec =>
    rw [hth] at h
    simp only [Bool.not_eq_true'] at h
    exact h

end LoadBalancer

namespace LoadBalancerV2

/-- The V2 sticky lookup never touches the health map or the cursor. -/
theorem stickyStepV2_preserves (cfg : LoadBalancer.Config) (s : LBState)
    (ip : LoadBalancer.ClientKey) :
    (stickyStep cfg s ip).2.targetHealth = s.targetHealth
    ∧ (stickyStep cfg s ip).2.current = s.current := by
  unfold stickyStep
  constructor <;> (split <;> (try split) <;> (try split) <;> rfl)

end LoadBalancerV2

namespace LoadBalancer

/-- C2 (amended): with failover enabled, at least two configured targets and
no session-affinity hit, the selection routine of the main module (part_000
lines 72-123) behaves exactly as claimed: a healthy primary is returned; an
unhealthy-recorded primary with a healthy secondary yields the secondary for
every cursor value; otherwise selection falls through to round-robin.  The
variant at part_000 lines 479-520, however, implements only the secondary
branch: it still returns the secondary whenever the primary is recorded
unhealthy and the secondary is healthy, but in every other case — including
a healthy primary — it falls through to round-robin, which need not return
the primary. -/
theorem failover_precedence_variants (cfg : Config) (fo : FailoverConfig)
    (service1 service2 : Target) (rest : List Target) (s : LBState) (ip : ClientKey)
    (hfo : cfg.failover = some fo) (hen : fo.enabled = true)
    (hmiss : (stickyStep cfg s ip).1 = none) :
    (healthyIn s.targetHealth service1 = true →
        (getTargetForIp cfg (service1 :: service2 :: rest) s ip).1
          = Except.ok (some service1))
    ∧ (unhealthyRecorded s.targetHealth service1 = true →
        healthyIn s.targetHealth service2 = true →
        (getTargetForIp cfg (service1 :: service2 :: rest) s ip).1
          = Except.ok (some service2))
    ∧ (healthyIn s.targetHealth service1 = false →
        (unhealthyRecorded s.targetHealth service1
          && healthyIn s.targetHealth service2) = false →
        getTargetForIp cfg (service1 :: service2 :: rest) s ip
          = (Except.ok (roundRobin cfg (service1 :: service2 :: rest)
              (stickyStep cfg s ip).2 ip).1,
            (roundRobin cfg (service1 :: service2 :: rest)
              (stickyStep cfg s ip).2 ip).2))
    ∧ (∀ s2 : LoadBalancerV2.LBState,
        (LoadBalancerV2.stickyStep cfg s2 ip).1 = none →
        (LoadBalancerV2.unhealthyRecorded s2.targetHealth service1 = true →
          LoadBalancerV2.healthyIn s2.targetHealth service2 = true →
          (LoadBalancerV2.getTargetForIp cfg (service1 :: service2 :: rest) s2 ip).1
            = Except.ok (some service2))
        ∧ ((LoadBalancerV2.unhealthyRecorded s2.targetHealth service1
            && LoadBalancerV2.healthyIn s2.targetHealth service2) = false →
          LoadBalancerV2.getTargetForIp cfg (service1 :: service2 :: rest) s2 ip
            = (Except.ok (LoadBalancerV2.roundRobin cfg (service1 :: service2 :: rest)
                (LoadBalancerV2.stickyStep cfg s2 ip).2 ip).1,
              (LoadBalancerV2.roundRobin cfg (service1 :: service2 :: rest)
                (LoadBalancerV2.stickyStep cfg s2 ip).2 ip).2))) := by
  obtain ⟨hth, -⟩ := stickyStep_preserves cfg s ip
  rcases hss : stickyStep cfg s ip with ⟨tOpt, s1⟩
  rw [hss] at hmiss hth
  simp only at hmiss
  subst hmiss
  refine ⟨?_, ?_, ?_, ?_⟩
  · intro hh1
    unfold getTargetForIp
    rw [hss, hfo]
    dsimp only
    rw [hen]
    dsimp only
    rw [hth, hh1]
    simp
  · intro hu1 hh2
    unfold getTargetForIp
    rw [hss, hfo]
    dsimp only
    rw [hen]
    dsimp only
    rw [hth, healthyIn_false_of_unhealthyRecorded s.targetHealth service1 hu1,
      hu1, hh2]
    simp
  · intro hf1 hb
    unfold getTargetForIp
    rw [hss, hfo]
    dsimp only
    rw [hen]
    dsimp only
    rw [hth, hf1, hb]
    simp
  · intro s2 hmiss2
    obtain ⟨hth2, -⟩ := LoadBalancerV2.stickyStepV2_preserves cfg s2 ip
    rcases hss2 : LoadBalancerV2.stickyStep cfg s2 ip with ⟨tOpt2, s3⟩
    rw [hss2] at hmiss2 hth2
    simp only at hmiss2
    subst hmiss2
    constructor
    · intro hu1 hh2
      unfold LoadBalancerV2.getTargetForIp
      rw [hss2, hfo]
      dsimp only
      rw [hen]
      dsimp only
      rw [hth2, hu1, hh2]
      simp
    · intro hb
      unfold LoadBalancerV2.getTargetForIp
      rw [hss2, hfo]
      dsimp only
      rw [hen]
      dsimp only
      rw [hth2, hb]
      simp

/-- Witness for C2's amended statement: under the failover-enabled part_000
configuration with both targets healthy, the main module returns the
primary. -/
theorem failover_precedence_variants_witness :
    (getTargetForIp part000Config v1Targets (initialState v1Targets) clientIp0).1
      = Except.ok (some v1TargetA) :=
  (failover_precedence_variants part000Config { enabled := true } v1TargetA v1TargetB
      [] (initialState v1Targets) clientIp0 rfl rfl rfl).1 (by decide)

/-- Counterexample to C2 as stated: on the variant at part_000 lines
479-520, with failover enabled, both targets healthy, no affinity entry and
the round-robin cursor at 1, `getTargetForIp` returns the SECOND target even
though the primary is healthy. -/
theorem failover_primary_counterexample :
    LoadBalancerV2.healthyIn LoadBalancerV2.bothHealthyCursor1.targetHealth
        LoadBalancerV2.v2TargetA = true
    ∧ (LoadBalancerV2.getTargetForIp part000Config LoadBalancerV2.v2Targets
        LoadBalancerV2.bothHealthyCursor1 clientIp0).1
      = Except.ok (some LoadBalancerV2.v2TargetB)
    ∧ LoadBalancerV2.v2TargetB ≠ LoadBalancerV2.v2TargetA := by
  refine ⟨by decide, rfl, by decide⟩

/-- C4 (amended): with no shutdown in progress, the probe classifier of the
main module (part_000 lines 148-161) marks a response successful exactly
when its status equals 200, while the variant classifier at part_000 lines
822-827 marks a response successful exactly when its status lies in
[200, 400); in both, a connection error or a timeout is a failure. -/
theorem probe_status_classification_variants (statusCode latency : Nat) (msg : String) :
    ((checkTargetHealth false (ProbeOutcome.response statusCode latency)).isHealthy
        = (statusCode == 200))
    ∧ ((checkTargetHealth false (ProbeOutcome.connError msg latency)).isHealthy = false)
    ∧ ((checkTargetHealth false (ProbeOutcome.timeout latency)).isHealthy = false)
    ∧ ((LoadBalancerV3.checkTargetHealth false
          (ProbeOutcome.response statusCode latency)).isHealthy
        = (decide (200 ≤ statusCode) && decide (statusCode < 400)))
    ∧ ((LoadBalancerV3.checkTargetHealth false
          (ProbeOutcome.connError msg latency)).isHealthy = false)
    ∧ ((LoadBalancerV3.checkTargetHealth false
          (ProbeOutcome.timeout latency)).isHealthy = false) :=
  ⟨rfl, rfl, rfl, rfl, rfl, rfl⟩

/-- Counterexample to C4 as stated: the variant classifier accepts a 301
redirect as a successful probe although 301 is not the configured success
code 200. -/
theorem probe_status_redirect_counterexample :
    (LoadBalancerV3.checkTargetHealth false (ProbeOutcome.response 301 5)).isHealthy = true
    ∧ (301 : Nat) ≠ 200 :=
  ⟨rfl, by decide⟩

end LoadBalancer
